import Mathlib

/-!
Verification of the ticket-reply evaluation system: a shallow embedding of
the core logic (response parser with JSON-primary / regex-fallback paths,
retry wrapper, batch evaluation driver, summary aggregation, CSV row
ingestion) together with theorems settling the specification's claims.

Python machine integers are arbitrary precision, so scores are `Int`;
strings are Lean `String`; fallible code returns `Except`.
-/

namespace TicketEval

/-! ## Data model (src/src/models) -/

/-- `EvaluationResult` dataclass: evaluation result from LLM. -/
structure EvaluationResult where
  content_score : Int
  content_explanation : String
  format_score : Int
  format_explanation : String
  deriving Repr, DecidableEq

/-- `TicketInput` dataclass: input ticket/reply pair. -/
structure TicketInput where
  ticket : String
  reply : String
  deriving Repr, DecidableEq

/-- `TicketEvaluated` dataclass: complete evaluated ticket. -/
structure TicketEvaluated where
  ticket : String
  reply : String
  content_score : Int
  content_explanation : String
  format_score : Int
  format_explanation : String
  deriving Repr, DecidableEq

/-! ## Python-level primitives used by the parser

The exceptions that `parse_response_json` can raise and that
`parse_response` catches: `json.JSONDecodeError` (a subclass of
`ValueError`), `KeyError`, `TypeError`, `ValueError`. -/

inductive PyError where
  | jsonDecodeError
  | keyError
  | typeError
  | valueError
  | overflowError
  deriving Repr, DecidableEq

/-- The exception classes caught at the `except` clause of
`parse_response`: `json.JSONDecodeError` (a `ValueError` subclass),
`KeyError`, `TypeError`, `ValueError`. `OverflowError` subclasses
`ArithmeticError`, not any of these, so it is not caught. -/
def caughtError : PyError → Bool
  | .jsonDecodeError => true
  | .keyError => true
  | .typeError => true
  | .valueError => true
  | .overflowError => false

/-- Characters Python's `re` module treats as whitespace for `\s`
(restricted to the ASCII range; the inputs of this system are ASCII). -/
def isPySpace (c : Char) : Bool :=
  c = ' ' || c = '\t' || c = '\n' || c = '\r' || c = '\x0b' || c = '\x0c'

/-- Characters matched by `\d` (ASCII decimal digits). -/
def isPyDigit (c : Char) : Bool :=
  '0' ≤ c && c ≤ '9'

/-- Numeric value of a run of decimal digits. -/
def digitsToNat (ds : List Char) : Nat :=
  ds.foldl (fun acc c => 10 * acc + (c.toNat - '0'.toNat)) 0

/-! ## Regex fallback machinery (src/src/parser.py, parse_response_regex)

The fallback uses two fixed patterns via `re.search` (leftmost match):
  score:        `"?LABEL"?\s*:\s*(\d+)`
  explanation:  `"?LABEL"?\s*:\s*"([^"]*)"`
They are embedded as deterministic matchers at a position plus a
leftmost-first scan, which is exactly `re.search`'s semantics for these
backtracking-free patterns. -/

/-- Match the tail of the score pattern `"?\s*:\s*(\d+)` at the head of
`s` (the part after the label), returning the captured digits' value.
Regex `?` is greedy: the branch consuming a present quote is tried first;
if it fails, the branch without the quote is tried. -/
def matchScoreTail (s : List Char) : Option Nat :=
  let colonDigits : List Char → Option Nat := fun t =>
    let t := t.dropWhile isPySpace
    match t with
    | ':' :: u =>
      let u := u.dropWhile isPySpace
      let ds := u.takeWhile isPyDigit
      if ds.isEmpty then none else some (digitsToNat ds)
    | _ => none
  match s with
  | '"' :: rest => (colonDigits rest).orElse (fun _ => colonDigits s)
  | _ => colonDigits s

/-- Match the whole score pattern `"?LABEL"?\s*:\s*(\d+)` at the head of
`s`. -/
def matchScoreAt (label : List Char) (s : List Char) : Option Nat :=
  let afterLabel : List Char → Option Nat := fun t =>
    if label.isPrefixOf t then matchScoreTail (t.drop label.length) else none
  match s with
  | '"' :: rest => (afterLabel rest).orElse (fun _ => afterLabel s)
  | _ => afterLabel s

/-- `re.search` for the score pattern: scan start positions left to
right, returning the first (leftmost) match's captured value. -/
def searchScore (label : List Char) : List Char → Option Nat
  | [] => matchScoreAt label []
  | s@(_ :: t) => (matchScoreAt label s).orElse (fun _ => searchScore label t)

/-- Match the tail of the explanation pattern `"?\s*:\s*"([^"]*)"` at the
head of `s`, returning the captured characters between the quotes. -/
def matchExpTail (s : List Char) : Option (List Char) :=
  let colonQuoted : List Char → Option (List Char) := fun t =>
    let t := t.dropWhile isPySpace
    match t with
    | ':' :: u =>
      let u := u.dropWhile isPySpace
      match u with
      | '"' :: v =>
        let cap := v.takeWhile (fun c => c ≠ '"')
        match v.drop cap.length with
        | '"' :: _ => some cap
        | _ => none
      | _ => none
    | _ => none
  match s with
  | '"' :: rest => (colonQuoted rest).orElse (fun _ => colonQuoted s)
  | _ => colonQuoted s

/-- Match the whole explanation pattern `"?LABEL"?\s*:\s*"([^"]*)"` at
the head of `s`. -/
def matchExpAt (label : List Char) (s : List Char) : Option (List Char) :=
  let afterLabel : List Char → Option (List Char) := fun t =>
    if label.isPrefixOf t then matchExpTail (t.drop label.length) else none
  match s with
  | '"' :: rest => (afterLabel rest).orElse (fun _ => afterLabel s)
  | _ => afterLabel s

/-- `re.search` for the explanation pattern (leftmost match). -/
def searchExp (label : List Char) : List Char → Option (List Char)
  | [] => matchExpAt label []
  | s@(_ :: t) => (matchExpAt label s).orElse (fun _ => searchExp label t)

/-! ## The parser (src/src/parser.py) -/

/-- `clamp_score`: clamp score to valid range 1-5
(`max(1, min(5, score))`). -/
def clamp_score (score : Int) : Int :=
  max 1 (min 5 score)

/-- `parse_response_regex`: fallback regex parser for malformed JSON. -/
def parse_response_regex (raw_response : String) : EvaluationResult :=
  let cs := raw_response.toList
  let content_score_match := searchScore "content_score".toList cs
  let format_score_match := searchScore "format_score".toList cs
  let content_exp_match := searchExp "content_explanation".toList cs
  let format_exp_match := searchExp "format_explanation".toList cs
  let content_score : Int := match content_score_match with
    | some n => (n : Int)
    | none => 3
  let format_score : Int := match format_score_match with
    | some n => (n : Int)
    | none => 3
  let content_exp : String := match content_exp_match with
    | some g => String.mk g
    | none => "Unable to parse explanation"
  let format_exp : String := match format_exp_match with
    | some g => String.mk g
    | none => "Unable to parse explanation"
  { content_score := clamp_score content_score
    content_explanation := content_exp
    format_score := clamp_score format_score
    format_explanation := format_exp }

/-! ## JSON decoding (Python's `json.loads`, as used by the parser)

The decoded value domain and a recursive-descent decoder. A JSON number
without fraction or exponent decodes to a Python `int`; one with a
fraction or exponent, and the constants `Infinity` / `-Infinity` /
`NaN`, decode to a Python `float`. -/

/-- A Python `float` as the parser observes it. A finite float is
modelled by the exact decimal value of its source literal; IEEE-754
rounding of the decimal-to-double conversion (and its overflow to
infinity for astronomically large literals) is outside the embedding —
no evaluated input depends on the rounding. -/
inductive PyFloat where
  | finite (q : ℚ)
  | inf (neg : Bool)
  | nan
  deriving Repr, DecidableEq

inductive JsonValue where
  | null
  | bool (b : Bool)
  | num (n : Int)
  | float (x : PyFloat)
  | str (s : String)
  | arr (xs : List JsonValue)
  | obj (kvs : List (String × JsonValue))
  deriving Repr

/-- JSON structural whitespace (space, tab, newline, carriage return). -/
def isJsonWs (c : Char) : Bool :=
  c = ' ' || c = '\t' || c = '\n' || c = '\r'

/-- Decode one JSON string escape (the character after a backslash),
returning the decoded character and the remaining input. `\uXXXX` is
decoded through `Char.ofNat` (surrogate-pair recombination is outside the
embedding; no evaluated input uses `\u`). -/
def decodeEscape : List Char → Option (Char × List Char)
  | '"' :: r => some ('"', r)
  | '\\' :: r => some ('\\', r)
  | '/' :: r => some ('/', r)
  | 'b' :: r => some ('\x08', r)
  | 'f' :: r => some ('\x0c', r)
  | 'n' :: r => some ('\n', r)
  | 'r' :: r => some ('\r', r)
  | 't' :: r => some ('\t', r)
  | 'u' :: a :: b :: c :: d :: r =>
    if a.isDigit || ('a' ≤ a && a ≤ 'f') || ('A' ≤ a && a ≤ 'F') then
      let hex : Char → Nat := fun x =>
        if x.isDigit then x.toNat - '0'.toNat
        else if 'a' ≤ x && x ≤ 'f' then x.toNat - 'a'.toNat + 10
        else x.toNat - 'A'.toNat + 10
      if ([b, c, d].all fun x =>
          x.isDigit || ('a' ≤ x && x ≤ 'f') || ('A' ≤ x && x ≤ 'F')) then
        some (Char.ofNat (((hex a * 16 + hex b) * 16 + hex c) * 16 + hex d), r)
      else none
    else none
  | _ => none

/-- Decode the body of a JSON string after the opening quote: returns the
decoded characters and the input remaining after the closing quote.
Unescaped control characters (below 0x20) are rejected, as in Python's
strict mode. -/
def decodeStringBody (fuel : Nat) (s : List Char) : Option (List Char × List Char) :=
  match fuel, s with
  | _, '"' :: r => some ([], r)
  | fuel + 1, '\\' :: r =>
    match decodeEscape r with
    | some (c, r') =>
      match decodeStringBody fuel r' with
      | some (cs, rest) => some (c :: cs, rest)
      | none => none
    | none => none
  | fuel + 1, c :: r =>
    if c.toNat < 0x20 then none
    else
      match decodeStringBody fuel r with
      | some (cs, rest) => some (c :: cs, rest)
      | none => none
  | _, _ => none

/-- The mandatory integer part of a JSON number: `0` or a nonzero digit
followed by digits (no leading zeros). -/
def decodeIntPart : List Char → Option (Nat × List Char)
  | '0' :: r => some (0, r)
  | t@(c :: _) =>
    if isPyDigit c then
      let ds := t.takeWhile isPyDigit
      some (digitsToNat ds, t.drop ds.length)
    else none
  | [] => none

/-- An optional fraction part `\.\d+`: consumed only when the dot is
followed by at least one digit (otherwise the number regex stops before
the dot), returning the fraction digits' value and count. -/
def decodeFrac : List Char → Option (Nat × Nat × List Char)
  | '.' :: r =>
    let ds := r.takeWhile isPyDigit
    if ds.isEmpty then none
    else some (digitsToNat ds, ds.length, r.drop ds.length)
  | _ => none

/-- An optional exponent part `[eE][-+]?\d+`: consumed only when
well-formed, returning the sign and the exponent's value. -/
def decodeExp (t : List Char) : Option (Bool × Nat × List Char) :=
  let digits : List Char → Option (Nat × List Char) := fun u =>
    let ds := u.takeWhile isPyDigit
    if ds.isEmpty then none else some (digitsToNat ds, u.drop ds.length)
  match t with
  | c :: r =>
    if c = 'e' || c = 'E' then
      match r with
      | '+' :: r2 => (digits r2).map fun p => (false, p.1, p.2)
      | '-' :: r2 => (digits r2).map fun p => (true, p.1, p.2)
      | _ => (digits r).map fun p => (false, p.1, p.2)
    else none
  | [] => none

/-- Decode a JSON number following the scanner's regex
`(-?(?:0|[1-9]\d*))(\.\d+)?([eE][-+]?\d+)?`: a number carrying a
fraction or exponent part converts to a Python `float` (its exact
decimal value), otherwise to an `int`. -/
def decodeNumber (s : List Char) : Option (JsonValue × List Char) :=
  let core : Bool → List Char → Option (JsonValue × List Char) := fun neg s1 =>
    match decodeIntPart s1 with
    | none => none
    | some (ip, r1) =>
      let fr : Option (Nat × Nat) × List Char :=
        match decodeFrac r1 with
        | some (fn, fl, r) => (some (fn, fl), r)
        | none => (none, r1)
      let ex : Option (Bool × Nat) × List Char :=
        match decodeExp fr.2 with
        | some (en, ev, r) => (some (en, ev), r)
        | none => (none, fr.2)
      match fr.1, ex.1 with
      | none, none => some (.num (if neg then -(ip : Int) else (ip : Int)), ex.2)
      | _, _ =>
        let fl : Nat := match fr.1 with | some (_, l) => l | none => 0
        let fn : Nat := match fr.1 with | some (n, _) => n | none => 0
        let mantissa : Nat := ip * Nat.pow 10 fl + fn
        let sgnMant : Int := if neg then -(mantissa : Int) else (mantissa : Int)
        let q : ℚ := match ex.1 with
          | some (eneg, ev) =>
            if eneg then mkRat sgnMant (Nat.pow 10 (fl + ev))
            else mkRat (sgnMant * (Nat.pow 10 ev : Nat)) (Nat.pow 10 fl)
          | none => mkRat sgnMant (Nat.pow 10 fl)
        some (.float (.finite q), ex.2)
  match s with
  | '-' :: r => core true r
  | _ => core false s

mutual

/-- Recursive-descent decoder for one JSON value (leading whitespace
already skipped), returning the value and the remaining input. -/
def parseVal : Nat → List Char → Option (JsonValue × List Char)
  | 0, _ => none
  | fuel + 1, s =>
    match s with
    | 'n' :: 'u' :: 'l' :: 'l' :: r => some (.null, r)
    | 't' :: 'r' :: 'u' :: 'e' :: r => some (.bool true, r)
    | 'f' :: 'a' :: 'l' :: 's' :: 'e' :: r => some (.bool false, r)
    | '"' :: r =>
      match decodeStringBody (r.length + 1) r with
      | some (cs, rest) => some (.str (String.mk cs), rest)
      | none => none
    | '[' :: r =>
      let r := r.dropWhile isJsonWs
      match r with
      | ']' :: rest => some (.arr [], rest)
      | _ =>
        match parseElems fuel r with
        | some (xs, rest) => some (.arr xs, rest)
        | none => none
    | '{' :: r =>
      let r := r.dropWhile isJsonWs
      match r with
      | '}' :: rest => some (.obj [], rest)
      | _ =>
        match parseMembers fuel r with
        | some (kvs, rest) => some (.obj kvs, rest)
        | none => none
    | 'N' :: 'a' :: 'N' :: r => some (.float .nan, r)
    | 'I' :: 'n' :: 'f' :: 'i' :: 'n' :: 'i' :: 't' :: 'y' :: r =>
      some (.float (.inf false), r)
    | '-' :: 'I' :: 'n' :: 'f' :: 'i' :: 'n' :: 'i' :: 't' :: 'y' :: r =>
      some (.float (.inf true), r)
    | _ => decodeNumber s

/-- Decode a nonempty comma-separated list of array elements up to and
including the closing `]`. -/
def parseElems : Nat → List Char → Option (List JsonValue × List Char)
  | 0, _ => none
  | fuel + 1, s =>
    match parseVal fuel s with
    | some (v, rest) =>
      let rest := rest.dropWhile isJsonWs
      match rest with
      | ']' :: r => some ([v], r)
      | ',' :: r =>
        match parseElems fuel (r.dropWhile isJsonWs) with
        | some (vs, rest') => some (v :: vs, rest')
        | none => none
      | _ => none
    | none => none

/-- Decode a nonempty comma-separated list of object members up to and
including the closing `}`. -/
def parseMembers : Nat → List Char → Option (List (String × JsonValue) × List Char)
  | 0, _ => none
  | fuel + 1, s =>
    match s with
    | '"' :: r =>
      match decodeStringBody (r.length + 1) r with
      | some (kcs, rest) =>
        let rest := rest.dropWhile isJsonWs
        match rest with
        | ':' :: r2 =>
          match parseVal fuel (r2.dropWhile isJsonWs) with
          | some (v, rest2) =>
            let rest2 := rest2.dropWhile isJsonWs
            match rest2 with
            | '}' :: r3 => some ([(String.mk kcs, v)], r3)
            | ',' :: r3 =>
              match parseMembers fuel (r3.dropWhile isJsonWs) with
              | some (kvs, rest3) => some ((String.mk kcs, v) :: kvs, rest3)
              | none => none
            | _ => none
          | none => none
        | _ => none
      | none => none
    | _ => none

end

/-- `json.loads`: decode a full JSON document; trailing content after the
value (other than whitespace) is a decode error, as is any syntax
failure. -/
def json_loads (s : String) : Except PyError JsonValue :=
  let cs := s.toList.dropWhile isJsonWs
  match parseVal (2 * s.length + 2) cs with
  | some (v, rest) =>
    if (rest.dropWhile isJsonWs).isEmpty then .ok v else .error .jsonDecodeError
  | none => .error .jsonDecodeError

/-! ## Python coercions used by `parse_response_json` -/

/-- Python dict subscript on the decoded object: duplicate JSON keys are
resolved last-wins (as `json.loads` builds a dict), so lookup takes the
last binding of the key. -/
def objGet (kvs : List (String × JsonValue)) (k : String) : Option JsonValue :=
  (kvs.reverse.find? (fun p => p.1 == k)).map (·.2)

/-- A nonempty digit run with PEP 515 underscores — single underscores
strictly between digits — returning the digits with underscores removed;
`none` on an empty, leading-, trailing- or double-underscore, or
non-digit input. -/
def digitsDropUnderscores : List Char → Option (List Char)
  | [] => none
  | [c] => if isPyDigit c then some [c] else none
  | c :: '_' :: r =>
    if isPyDigit c then
      match digitsDropUnderscores r with
      | some ds => some (c :: ds)
      | none => none
    else none
  | c :: r =>
    if isPyDigit c then
      match digitsDropUnderscores r with
      | some ds => some (c :: ds)
      | none => none
    else none

/-- `int(str)`: strip surrounding whitespace, optional sign, then a
digit run with optional PEP 515 underscores between digits
(`int("1_0") = 10`); everything else raises `ValueError`. (Non-ASCII
digits and whitespace are outside the embedding.) -/
def pyIntOfString (s : String) : Except PyError Int :=
  let t := (s.toList.dropWhile isPySpace).reverse.dropWhile isPySpace |>.reverse
  match t with
  | '-' :: ds =>
    match digitsDropUnderscores ds with
    | some ds2 => .ok (-(digitsToNat ds2 : Int))
    | none => .error .valueError
  | '+' :: ds =>
    match digitsDropUnderscores ds with
    | some ds2 => .ok ((digitsToNat ds2 : Int))
    | none => .error .valueError
  | ds =>
    match digitsDropUnderscores ds with
    | some ds2 => .ok ((digitsToNat ds2 : Int))
    | none => .error .valueError

/-- `int(x)` on a decoded JSON value: ints pass through, booleans become
0/1, finite floats truncate toward zero, infinite floats raise
`OverflowError` ("cannot convert float infinity to integer" — not in the
caught tuple), `NaN` raises `ValueError` (caught), numeric strings are
parsed, everything else raises (`TypeError` for null/containers,
`ValueError` for bad strings). -/
def pyInt : JsonValue → Except PyError Int
  | .num n => .ok n
  | .bool b => .ok (if b then 1 else 0)
  | .float (.finite q) => .ok (q.num.tdiv q.den)
  | .float (.inf _) => .error .overflowError
  | .float .nan => .error .valueError
  | .str s => pyIntOfString s
  | .null => .error .typeError
  | .arr _ => .error .typeError
  | .obj _ => .error .typeError

/-- `str`/`repr` of a Python float: `inf` / `-inf` / `nan` as CPython
prints them; the shortest-repr printing of a finite float is outside the
embedding (no claim observes it) and is rendered as the exact rational. -/
def pyFloatRepr : PyFloat → String
  | .inf neg => if neg then "-inf" else "inf"
  | .nan => "nan"
  | .finite q => toString q

/-- Python `repr` of a decoded JSON value (used inside containers by
`str`); string escaping inside `repr` is outside the embedding. -/
def pyRepr : JsonValue → String
  | .null => "None"
  | .bool b => if b then "True" else "False"
  | .num n => toString n
  | .float x => pyFloatRepr x
  | .str s => "'" ++ s ++ "'"
  | .arr xs => "[" ++ String.intercalate ", " (xs.attach.map fun x => pyRepr x.1) ++ "]"
  | .obj kvs => "\x7b" ++ String.intercalate ", "
      (kvs.attach.map fun p => "'" ++ p.1.1 ++ "': " ++ pyRepr p.1.2) ++ "\x7d"
  decreasing_by
    · have := List.sizeOf_lt_of_mem x.2
      simp only [JsonValue.arr.sizeOf_spec]
      omega
    · obtain ⟨⟨k, v⟩, hp⟩ := p
      have := List.sizeOf_lt_of_mem hp
      simp only [Prod.mk.sizeOf_spec] at this
      simp only [JsonValue.obj.sizeOf_spec]
      omega

/-- `str(x)` on a decoded JSON value: a string is itself, anything else
renders as its `repr`. -/
def pyStr : JsonValue → String
  | .str s => s
  | v => pyRepr v

/-- The body of `parse_response_json` after `json.loads`: subscript the
decoded value by the four keys (in the evaluation order of the
`EvaluationResult(...)` call), coercing scores with `int` + `clamp_score`
and explanations with `str`. Subscripting a non-dict raises `TypeError`;
a missing key raises `KeyError`. -/
def parseEvalFromValue (v : JsonValue) : Except PyError EvaluationResult :=
  match v with
  | .obj kvs =>
    match objGet kvs "content_score" with
    | none => .error .keyError
    | some cs =>
      match pyInt cs with
      | .error e => .error e
      | .ok csi =>
        match objGet kvs "content_explanation" with
        | none => .error .keyError
        | some ce =>
          match objGet kvs "format_score" with
          | none => .error .keyError
          | some fs =>
            match pyInt fs with
            | .error e => .error e
            | .ok fsi =>
              match objGet kvs "format_explanation" with
              | none => .error .keyError
              | some fe =>
                .ok { content_score := clamp_score csi
                      content_explanation := pyStr ce
                      format_score := clamp_score fsi
                      format_explanation := pyStr fe }
  | _ => .error .typeError

/-- `parse_response_json`: parse JSON response from LLM. -/
def parse_response_json (raw_response : String) : Except PyError EvaluationResult :=
  match json_loads raw_response with
  | .error e => .error e
  | .ok data => parseEvalFromValue data

/-- `parse_response`: parse LLM response with fallback. The `except`
clause catches `(json.JSONDecodeError, KeyError, TypeError, ValueError)`
and recovers with the regex fallback; an `OverflowError` — raised by
`int()` on an infinite decoded score — is not in that tuple and
propagates to the caller. (A `RecursionError` on very deeply nested
input likewise escapes in CPython; recursion/stack limits are a resource
effect outside this embedding, whose decoder is fueled.) The warning
print is a side effect outside the embedding. -/
def parse_response (raw_response : String) : Except PyError EvaluationResult :=
  match parse_response_json raw_response with
  | .ok r => .ok r
  | .error e =>
    if caughtError e then .ok (parse_response_regex raw_response) else .error e

/-! ## Retry wrapper (src/src/evaluator.py, evaluate_ticket_with_retry)

The `tenacity` decorator with `stop_after_attempt(3)`, retry on any
exception, `reraise=True`. The opaque decorated body is modelled as a
function from the attempt number (1-based) to a result or an error; the
backoff waits are real-time effects outside the embedding and do not
change which attempts run. `retry_call` returns the final outcome paired
with the number of attempts actually made: a success returns
immediately, and after a failed attempt with number `≥ stopAfter` the
last error is re-raised unmodified (`reraise=True`). -/

/-- One attempt plus the given number of further attempts remaining:
with none remaining the current attempt's outcome is final (its error is
re-raised); otherwise a failure moves on to the next attempt. -/
def retryGo (f : Nat → Except ε α) : Nat → Nat → Except ε α × Nat
  | attempt, 0 => (f attempt, 1)
  | attempt, remaining + 1 =>
    match f attempt with
    | .ok a => (.ok a, 1)
    | .error _ =>
      let r := retryGo f (attempt + 1) remaining
      (r.1, r.2 + 1)

/-- Run attempts starting at attempt number 1 until one succeeds or the
attempt number reaches `stopAfter`, whose failure is re-raised. -/
def retry_call (stopAfter : Nat) (f : Nat → Except ε α) : Except ε α × Nat :=
  retryGo f 1 (stopAfter - 1)

/-- `str(e)` of an exception escaping `parse_response` into the retry
wrapper. Only `OverflowError` can escape (every other constructor is
caught inside `parse_response`), so only its CPython message is
observable; the others carry nominal renderings. -/
def pyExcMessage : PyError → String
  | .overflowError => "cannot convert float infinity to integer"
  | .jsonDecodeError => "JSONDecodeError"
  | .keyError => "KeyError"
  | .typeError => "TypeError"
  | .valueError => "ValueError"

/-- A parse outcome as the retry wrapper sees it: an exception escaping
`parse_response` fails the attempt with its `str(e)` message. -/
def attemptOutcome : Except PyError EvaluationResult → Except String EvaluationResult
  | .ok r => .ok r
  | .error e => .error (pyExcMessage e)

/-- The retried body of `evaluate_ticket_with_retry`: one call of
`client.evaluate(ticket, reply)` (which may fail), then `parse_response`
on the raw text — whose own uncaught failure (an `OverflowError`) also
fails the attempt, since the retry condition is any `Exception`. The
client is modelled as a function from ticket, reply and attempt number
to either an error message or the raw response text. -/
def evalAttempt (client : String → String → Nat → Except String String)
    (ticket reply : String) (attempt : Nat) : Except String EvaluationResult :=
  match client ticket reply attempt with
  | .error e => .error e
  | .ok raw => attemptOutcome (parse_response raw)

/-- `evaluate_ticket_with_retry`: evaluate a single ticket with retry
logic (up to 3 attempts). -/
def evaluate_ticket_with_retry (client : String → String → Nat → Except String String)
    (ticket reply : String) : Except String EvaluationResult :=
  (retry_call 3 (evalAttempt client ticket reply)).1

/-- Number of attempts `evaluate_ticket_with_retry` makes. -/
def evaluate_ticket_attempts (client : String → String → Nat → Except String String)
    (ticket reply : String) : Nat :=
  (retry_call 3 (evalAttempt client ticket reply)).2

/-! ## Batch evaluation driver (src/src/evaluator.py, evaluate_tickets) -/

/-- `evaluate_tickets`: evaluate all tickets in order; a per-item failure
after retry exhaustion is caught and converted into a placeholder record
with both scores 0 and both explanations `"Evaluation failed: {e}"`. The
progress prints are side effects outside the embedding. -/
def evaluate_tickets (tickets : List TicketInput)
    (client : String → String → Nat → Except String String) : List TicketEvaluated :=
  tickets.map fun ticket_input =>
    match evaluate_ticket_with_retry client ticket_input.ticket ticket_input.reply with
    | .ok result =>
      { ticket := ticket_input.ticket
        reply := ticket_input.reply
        content_score := result.content_score
        content_explanation := result.content_explanation
        format_score := result.format_score
        format_explanation := result.format_explanation }
    | .error e =>
      { ticket := ticket_input.ticket
        reply := ticket_input.reply
        content_score := 0
        content_explanation := "Evaluation failed: " ++ e
        format_score := 0
        format_explanation := "Evaluation failed: " ++ e }

/-! ## Summary aggregation (evaluate_tickets.py, main) -/

structure Summary where
  total : Nat
  successful : Nat
  failed : Nat
  avg_content : ℚ
  avg_format : ℚ
  deriving Repr, DecidableEq

/-- The summary block of `main`: successful records are those with
`content_score > 0`; each average divides by the number of successful
records and is 0 when there are none (Python list truthiness guard). -/
def summarize (results : List TicketEvaluated) : Summary :=
  let successful := results.filter fun r => 0 < r.content_score
  let avg_content : ℚ :=
    if successful.isEmpty then 0
    else (successful.map fun r => (r.content_score : ℚ)).sum / successful.length
  let avg_format : ℚ :=
    if successful.isEmpty then 0
    else (successful.map fun r => (r.format_score : ℚ)).sum / successful.length
  { total := results.length
    successful := successful.length
    failed := results.length - successful.length
    avg_content := avg_content
    avg_format := avg_format }

/-! ## CSV ingestion (src/src/csv_handler.py, read_tickets)

The file is modelled at the level `csv.DictReader` delivers it: an
optional header (`None` for an empty file) and the parsed data rows, each
an association list from column name to cell text. File-system errors and
the skipped-row warning prints are side effects outside the embedding. -/

/-- `str.strip()`: remove leading and trailing whitespace (Python's
whitespace set, ASCII range). -/
def pyStrip (s : String) : String :=
  String.mk (((s.toList.dropWhile isPySpace).reverse.dropWhile isPySpace).reverse)

/-- `row.get(key, "")` on a parsed row. -/
def rowGet (row : List (String × String)) (k : String) : String :=
  ((row.find? fun p => p.1 == k).map (·.2)).getD ""

/-- The per-row body of the `read_tickets` loop: strip both fields and
keep the row only when both are nonempty. -/
def usableRow (row : List (String × String)) : Option TicketInput :=
  let ticket := pyStrip (rowGet row "ticket")
  let reply := pyStrip (rowGet row "reply")
  if ticket = "" || reply = "" then none
  else some { ticket := ticket, reply := reply }

/-- `read_tickets`: read tickets from CSV. A `None` header (empty file)
and missing required columns raise `ValueError` before any row is read;
rows with an empty trimmed field are skipped; zero surviving rows raises
`ValueError`. -/
def read_tickets (fieldnames : Option (List String))
    (rows : List (List (String × String))) : Except String (List TicketInput) :=
  match fieldnames with
  | none => .error "Empty CSV file"
  | some fns =>
    if "ticket" ∈ fns ∧ "reply" ∈ fns then
      let tickets := rows.filterMap usableRow
      if tickets.isEmpty then .error "No valid tickets found in CSV"
      else .ok tickets
    else .error "Missing required columns"

/-! ## Shared lemmas -/

theorem clamp_score_range (s : Int) : 1 ≤ clamp_score s ∧ clamp_score s ≤ 5 := by
  unfold clamp_score
  omega

/-- The regex fallback always returns scores in [1, 5]: both score fields
are `clamp_score` applications. -/
theorem parse_response_regex_range (raw : String) :
    (1 ≤ (parse_response_regex raw).content_score ∧
      (parse_response_regex raw).content_score ≤ 5) ∧
    (1 ≤ (parse_response_regex raw).format_score ∧
      (parse_response_regex raw).format_score ≤ 5) := by
  unfold parse_response_regex
  exact ⟨clamp_score_range _, clamp_score_range _⟩

/-- Success characterization of the post-decode body of
`parse_response_json`: it succeeds exactly on a decoded object containing
(at least) the four keys whose two score values are `int`-coercible, and
the result's fields are the clamped/stringified coercions. -/
theorem parseEvalFromValue_ok_iff (v : JsonValue) (r : EvaluationResult) :
    parseEvalFromValue v = .ok r ↔
    ∃ kvs cs ci ce fs fi fe,
      v = .obj kvs ∧
      objGet kvs "content_score" = some cs ∧ pyInt cs = .ok ci ∧
      objGet kvs "content_explanation" = some ce ∧
      objGet kvs "format_score" = some fs ∧ pyInt fs = .ok fi ∧
      objGet kvs "format_explanation" = some fe ∧
      r = { content_score := clamp_score ci, content_explanation := pyStr ce,
            format_score := clamp_score fi, format_explanation := pyStr fe } := by
  constructor
  · intro h
    cases v with
    | obj kvs =>
      simp only [parseEvalFromValue] at h
      repeat' split at h
      all_goals try exact Except.noConfusion h
      injection h with h
      exact ⟨kvs, _, _, _, _, _, _, rfl, by assumption, by assumption, by assumption,
        by assumption, by assumption, by assumption, h.symm⟩
    | null => exact Except.noConfusion h
    | bool b => exact Except.noConfusion h
    | num n => exact Except.noConfusion h
    | float x => exact Except.noConfusion h
    | str s => exact Except.noConfusion h
    | arr xs => exact Except.noConfusion h
  · rintro ⟨kvs, cs, ci, ce, fs, fi, fe, rfl, h1, h2, h3, h4, h5, h6, rfl⟩
    simp only [parseEvalFromValue, h1, h2, h3, h4, h5, h6]

/-- Whenever `parse_response` returns a result (does not raise), both
scores are in [1, 5]: both the strict and the fallback path clamp. -/
theorem parse_response_ok_range (raw : String) (r : EvaluationResult)
    (h : parse_response raw = .ok r) :
    (1 ≤ r.content_score ∧ r.content_score ≤ 5) ∧
    (1 ≤ r.format_score ∧ r.format_score ≤ 5) := by
  cases hj : parse_response_json raw with
  | ok r2 =>
    simp only [parse_response, hj, Except.ok.injEq] at h
    subst h
    unfold parse_response_json at hj
    cases hl : json_loads raw with
    | error e => rw [hl] at hj; exact Except.noConfusion hj
    | ok v =>
      rw [hl] at hj
      obtain ⟨kvs, cs, ci, ce, fs, fi, fe, _, _, _, _, _, _, _, hr⟩ :=
        (parseEvalFromValue_ok_iff v _).mp hj
      subst hr
      exact ⟨clamp_score_range _, clamp_score_range _⟩
  | error e =>
    simp only [parse_response, hj] at h
    by_cases hc : caughtError e = true
    · rw [if_pos hc, Except.ok.injEq] at h
      subst h
      exact parse_response_regex_range raw
    · rw [if_neg hc] at h
      exact Except.noConfusion h

/-! ## Claim theorems -/

/-- C1 counterexample: on a structured response whose content score is
`Infinity`, the strict decode succeeds with `float('inf')`, then `int()`
raises `OverflowError` — which is not in the caught tuple
`(json.JSONDecodeError, KeyError, TypeError, ValueError)` — so
`parse_response` raises to its caller instead of recovering with the
fallback: the parser does fail, on this and any such input. -/
theorem parse_response_overflow_counterexample :
    json_loads "\x7b\"content_score\": Infinity, \"content_explanation\": \"a\", \"format_score\": 1, \"format_explanation\": \"b\"\x7d"
      = .ok (.obj [("content_score", .float (.inf false)),
                   ("content_explanation", .str "a"),
                   ("format_score", .num 1), ("format_explanation", .str "b")]) ∧
    parse_response "\x7b\"content_score\": Infinity, \"content_explanation\": \"a\", \"format_score\": 1, \"format_explanation\": \"b\"\x7d"
      = .error .overflowError ∧
    caughtError .overflowError = false :=
  ⟨rfl, rfl, rfl⟩

/-- C1 amended: for every input string (including the empty string),
`parse_response` either returns a complete `EvaluationResult` with both
scores in [1, 5], or raises — and the only exception it can propagate is
the `OverflowError` from coercing an infinite decoded score, which the
caught tuple misses; every strict-parse failure that is in the caught
tuple (`json.JSONDecodeError`, `KeyError`, `TypeError`, `ValueError`) is
recovered by the fallback, which itself never fails. (CPython can also
let a `RecursionError` escape on pathologically nested input; stack
limits are a resource effect outside this embedding.) -/
theorem parse_response_failure_modes (raw : String) :
    (∀ r, parse_response raw = .ok r →
      (1 ≤ r.content_score ∧ r.content_score ≤ 5) ∧
      (1 ≤ r.format_score ∧ r.format_score ≤ 5)) ∧
    (∀ e, parse_response raw = .error e → e = .overflowError) ∧
    (∀ e, parse_response_json raw = .error e → caughtError e = true →
      parse_response raw = .ok (parse_response_regex raw)) := by
  refine ⟨fun r h => parse_response_ok_range raw r h, ?_, ?_⟩
  · intro e he
    cases hj : parse_response_json raw with
    | ok r =>
      simp only [parse_response, hj] at he
      exact Except.noConfusion he
    | error e2 =>
      simp only [parse_response, hj] at he
      by_cases hc : caughtError e2 = true
      · rw [if_pos hc] at he
        exact Except.noConfusion he
      · rw [if_neg hc] at he
        injection he with he
        subst he
        cases e2 <;> first | rfl | exact absurd rfl hc
  · intro e he hc
    simp only [parse_response, he, if_pos hc]

/-- Witness for the amended C1 at the empty string: the strict parse
fails with a caught decode error, so the result is exactly the
fallback's, whose scores are in range. -/
theorem parse_response_failure_modes_witness :
    parse_response "" = .ok (parse_response_regex "") ∧
    ((1 ≤ (parse_response_regex "").content_score ∧
        (parse_response_regex "").content_score ≤ 5) ∧
      (1 ≤ (parse_response_regex "").format_score ∧
        (parse_response_regex "").format_score ≤ 5)) :=
  ⟨(parse_response_failure_modes "").2.2 PyError.jsonDecodeError rfl rfl,
   (parse_response_failure_modes "").1 (parse_response_regex "")
     ((parse_response_failure_modes "").2.2 PyError.jsonDecodeError rfl rfl)⟩

/-- C2: every integer score `s` decoded from a validly structured
response comes out as `max(1, min(5, s))` (for both score fields), and
in the full pipeline 10 ↦ 5, 0 ↦ 1, −7 ↦ 1, 3 ↦ 3: out-of-range values
are clamped to the nearest boundary rather than rejected. -/
theorem structured_scores_clamped :
    (∀ (kvs : List (String × JsonValue)) (s : Int) (r : EvaluationResult),
      objGet kvs "content_score" = some (.num s) →
      parseEvalFromValue (.obj kvs) = .ok r →
      r.content_score = max 1 (min 5 s)) ∧
    (∀ (kvs : List (String × JsonValue)) (s : Int) (r : EvaluationResult),
      objGet kvs "format_score" = some (.num s) →
      parseEvalFromValue (.obj kvs) = .ok r →
      r.format_score = max 1 (min 5 s)) ∧
    parse_response "\x7b\"content_score\": 10, \"content_explanation\": \"a\", \"format_score\": 2, \"format_explanation\": \"b\"\x7d"
      = .ok { content_score := 5, content_explanation := "a",
              format_score := 2, format_explanation := "b" } ∧
    parse_response "\x7b\"content_score\": 0, \"content_explanation\": \"a\", \"format_score\": 2, \"format_explanation\": \"b\"\x7d"
      = .ok { content_score := 1, content_explanation := "a",
              format_score := 2, format_explanation := "b" } ∧
    parse_response "\x7b\"content_score\": -7, \"content_explanation\": \"a\", \"format_score\": 2, \"format_explanation\": \"b\"\x7d"
      = .ok { content_score := 1, content_explanation := "a",
              format_score := 2, format_explanation := "b" } ∧
    parse_response "\x7b\"content_score\": 3, \"content_explanation\": \"a\", \"format_score\": 2, \"format_explanation\": \"b\"\x7d"
      = .ok { content_score := 3, content_explanation := "a",
              format_score := 2, format_explanation := "b" } := by
  refine ⟨?_, ?_, rfl, rfl, rfl, rfl⟩
  · intro kvs s r hget hok
    obtain ⟨kvs', cs, ci, ce, fs, fi, fe, hv, h1, h2, _, _, _, _, hr⟩ :=
      (parseEvalFromValue_ok_iff _ r).mp hok
    injection hv with hv
    subst hv
    rw [hget] at h1
    injection h1 with h1
    subst h1
    injection h2 with h2
    subst h2
    rw [hr]
    rfl
  · intro kvs s r hget hok
    obtain ⟨kvs', cs, ci, ce, fs, fi, fe, hv, _, _, _, h4, h5, _, hr⟩ :=
      (parseEvalFromValue_ok_iff _ r).mp hok
    injection hv with hv
    subst hv
    rw [hget] at h4
    injection h4 with h4
    subst h4
    injection h5 with h5
    subst h5
    rw [hr]
    rfl

/-- Witness for C2: a structured response carrying content score 10
decodes, and the output content score is `max(1, min(5, 10)) = 5`. -/
theorem structured_scores_clamped_witness :
    ∃ r, parseEvalFromValue
        (.obj [("content_score", .num 10), ("content_explanation", .str "a"),
               ("format_score", .num 2), ("format_explanation", .str "b")]) = .ok r ∧
      r.content_score = max 1 (min 5 10) :=
  ⟨_, rfl, structured_scores_clamped.1
    [("content_score", .num 10), ("content_explanation", .str "a"),
     ("format_score", .num 2), ("format_explanation", .str "b")] 10 _ rfl rfl⟩

/-- C3 counterexample: a text that is not validly structured, contains a
substring matching `content_score: 4` (at offset 17) and a quoted
`content_explanation: "Good"`, yet the fallback yields content score 1,
not 4 — `re.search` takes the leftmost match, here the earlier
`content_score: 1`. -/
theorem fallback_leftmost_counterexample :
    (∃ e, parse_response_json
      "content_score: 1 content_score: 4 content_explanation: \"Good\"" = .error e) ∧
    matchScoreAt "content_score".toList
      (("content_score: 1 content_score: 4 content_explanation: \"Good\"").toList.drop 17)
      = some 4 ∧
    matchExpAt "content_explanation".toList
      (("content_score: 1 content_score: 4 content_explanation: \"Good\"").toList.drop 34)
      = some "Good".toList ∧
    parse_response "content_score: 1 content_score: 4 content_explanation: \"Good\""
      = .ok { content_score := 1, content_explanation := "Good",
              format_score := 3, format_explanation := "Unable to parse explanation" } ∧
    ((1 : Int) ≠ 4) :=
  ⟨⟨PyError.jsonDecodeError, rfl⟩, rfl, rfl, rfl, by decide⟩

/-- C3 amended: for any text on which the strict parse fails with a
caught exception, the result is exactly the fallback's; the fallback
yields content score 4 when its *leftmost* content-score match captures
4, and explanation `"Good"` when its leftmost content-explanation match
captures `"Good"`; any field whose pattern has no match at all
defaults — scores to 3 and explanations to the fixed
`"Unable to parse explanation"` sentinel. -/
theorem fallback_first_match_extraction :
    (∀ raw e, parse_response_json raw = .error e → caughtError e = true →
      parse_response raw = .ok (parse_response_regex raw)) ∧
    (∀ raw, searchScore "content_score".toList raw.toList = some 4 →
      (parse_response_regex raw).content_score = 4) ∧
    (∀ raw, searchExp "content_explanation".toList raw.toList = some "Good".toList →
      (parse_response_regex raw).content_explanation = "Good") ∧
    (∀ raw, searchScore "content_score".toList raw.toList = none →
      (parse_response_regex raw).content_score = 3) ∧
    (∀ raw, searchScore "format_score".toList raw.toList = none →
      (parse_response_regex raw).format_score = 3) ∧
    (∀ raw, searchExp "content_explanation".toList raw.toList = none →
      (parse_response_regex raw).content_explanation = "Unable to parse explanation") ∧
    (∀ raw, searchExp "format_explanation".toList raw.toList = none →
      (parse_response_regex raw).format_explanation = "Unable to parse explanation") := by
  refine ⟨?_, ?_, ?_, ?_, ?_, ?_, ?_⟩
  · intro raw e he hc
    simp only [parse_response, he, if_pos hc]
  all_goals
    · intro raw hs
      simp only [parse_response_regex, hs]
      try rfl

/-- Witness for the amended C3 on a text where the leftmost matches are
`4` and `"Good"` and the format fields have no match. -/
theorem fallback_first_match_extraction_witness :
    parse_response "content_score: 4 content_explanation: \"Good\""
      = .ok (parse_response_regex "content_score: 4 content_explanation: \"Good\"") ∧
    (parse_response_regex "content_score: 4 content_explanation: \"Good\"").content_score = 4 ∧
    (parse_response_regex "content_score: 4 content_explanation: \"Good\"").content_explanation = "Good" ∧
    (parse_response_regex "content_score: 4 content_explanation: \"Good\"").format_score = 3 ∧
    (parse_response_regex "content_score: 4 content_explanation: \"Good\"").format_explanation = "Unable to parse explanation" :=
  ⟨fallback_first_match_extraction.1 _ PyError.jsonDecodeError rfl rfl,
   fallback_first_match_extraction.2.1 _ rfl,
   fallback_first_match_extraction.2.2.1 _ rfl,
   fallback_first_match_extraction.2.2.2.2.1 _ rfl,
   fallback_first_match_extraction.2.2.2.2.2.2 _ rfl⟩

/-- C4 counterexample: a decoded object with a fifth key `extra` beyond
the four required ones on which the primary path nevertheless succeeds,
refuting "exactly the four keys" / "any other key set fails". -/
theorem strict_parse_extra_key_counterexample :
    json_loads "\x7b\"content_score\": 3, \"content_explanation\": \"a\", \"format_score\": 4, \"format_explanation\": \"b\", \"extra\": 1\x7d"
      = .ok (.obj [("content_score", .num 3), ("content_explanation", .str "a"),
                   ("format_score", .num 4), ("format_explanation", .str "b"),
                   ("extra", .num 1)]) ∧
    parse_response_json "\x7b\"content_score\": 3, \"content_explanation\": \"a\", \"format_score\": 4, \"format_explanation\": \"b\", \"extra\": 1\x7d"
      = .ok { content_score := 3, content_explanation := "a",
              format_score := 4, format_explanation := "b" } :=
  ⟨rfl, rfl⟩

/-- C4 amended: the primary path succeeds exactly when the decoded value
is a keyed collection containing *at least* the four keys
`content_score`, `content_explanation`, `format_score`,
`format_explanation` with both score values numeric-coercible (extra
keys are permitted); it fails whenever a score field is not
numeric-coercible or any of the four keys is absent — though for an
infinite float score that failure is an `OverflowError` outside the
caught tuple, bypassing the fallback. Numeric coercion follows `int()`:
underscore-separated digit strings (`int("1_0") = 10`) and finite
floats (truncated toward zero) are coercible; an infinite float raises
`OverflowError`. -/
theorem strict_parse_success_characterization :
    (∀ v : JsonValue,
      (∃ r, parseEvalFromValue v = .ok r) ↔
      (∃ kvs, v = .obj kvs ∧
        (∃ cs ci, objGet kvs "content_score" = some cs ∧ pyInt cs = .ok ci) ∧
        (objGet kvs "content_explanation").isSome = true ∧
        (∃ fs fi, objGet kvs "format_score" = some fs ∧ pyInt fs = .ok fi) ∧
        (objGet kvs "format_explanation").isSome = true)) ∧
    pyInt (.str "1_0") = .ok 10 ∧
    pyInt (.float (.finite (mkRat 47 10))) = .ok 4 ∧
    pyInt (.float (.inf false)) = .error .overflowError ∧
    caughtError .overflowError = false ∧
    parse_response_json "\x7b\"content_score\": \"1_0\", \"content_explanation\": \"a\", \"format_score\": 4.7, \"format_explanation\": \"b\"\x7d"
      = .ok { content_score := 5, content_explanation := "a",
              format_score := 4, format_explanation := "b" } := by
  refine ⟨?_, rfl, rfl, rfl, rfl, rfl⟩
  intro v
  constructor
  · rintro ⟨r, hr⟩
    obtain ⟨kvs, cs, ci, ce, fs, fi, fe, hv, h1, h2, h3, h4, h5, h6, _⟩ :=
      (parseEvalFromValue_ok_iff v r).mp hr
    exact ⟨kvs, hv, ⟨cs, ci, h1, h2⟩, by rw [h3]; rfl, ⟨fs, fi, h4, h5⟩, by rw [h6]; rfl⟩
  · rintro ⟨kvs, rfl, ⟨cs, ci, h1, h2⟩, h3, ⟨fs, fi, h4, h5⟩, h6⟩
    obtain ⟨ce, h3⟩ := Option.isSome_iff_exists.mp h3
    obtain ⟨fe, h6⟩ := Option.isSome_iff_exists.mp h6
    exact ⟨_, (parseEvalFromValue_ok_iff _ _).mpr
      ⟨kvs, cs, ci, ce, fs, fi, fe, rfl, h1, h2, h3, h4, h5, h6, rfl⟩⟩

/-- Witness for the amended C4 at the five-key object: the
characterization's right-hand side holds concretely, so the primary path
succeeds there. -/
theorem strict_parse_success_characterization_witness :
    ∃ r, parseEvalFromValue
      (.obj [("content_score", .num 3), ("content_explanation", .str "a"),
             ("format_score", .num 4), ("format_explanation", .str "b"),
             ("extra", .num 1)]) = .ok r :=
  (strict_parse_success_characterization.1 _).mpr
    ⟨_, rfl, ⟨_, 3, rfl, rfl⟩, rfl, ⟨_, 4, rfl, rfl⟩, rfl⟩

/-- C10 counterexample: a text on which the strict parse fails and whose
*first* value following a score label is the negative integer −7
(`matchScoreAt` rejects it at offset 0), yet the field does not take the
neutral default 3: `re.search` skips forward and extracts the later
unsigned `2`. -/
theorem fallback_negative_counterexample :
    (∃ e, parse_response_json "content_score: -7 content_score: 2" = .error e) ∧
    ("content_score: -7 content_score: 2".toList.take 17 = "content_score: -7".toList) ∧
    matchScoreAt "content_score".toList "content_score: -7 content_score: 2".toList = none ∧
    parse_response "content_score: -7 content_score: 2"
      = .ok { content_score := 2,
              content_explanation := "Unable to parse explanation",
              format_score := 3,
              format_explanation := "Unable to parse explanation" } ∧
    ((2 : Int) ≠ 3) ∧ ((2 : Int) ≠ 1) :=
  ⟨⟨PyError.jsonDecodeError, rfl⟩, rfl, rfl, rfl, by decide, by decide⟩

/-- C10 amended: the fallback's score pattern matches only unsigned
digit sequences — a label whose value starts with a minus sign is never
matched, so a negative value is never extracted or clamped — and a score
field takes the neutral default 3 (not the clamped boundary 1) when no
occurrence of the pattern matches anywhere in the text; that fallback
result is what `parse_response` returns whenever the strict parse fails
with a caught exception, and in particular `content_score: -7` alone
yields 3. -/
theorem fallback_unsigned_only :
    (∀ s, matchScoreTail (':' :: ' ' :: '-' :: s) = none) ∧
    (∀ raw, searchScore "content_score".toList raw.toList = none →
      (parse_response_regex raw).content_score = 3) ∧
    (∀ raw e, parse_response_json raw = .error e → caughtError e = true →
      parse_response raw = .ok (parse_response_regex raw)) ∧
    searchScore "content_score".toList "content_score: -7".toList = none ∧
    parse_response "content_score: -7"
      = .ok { content_score := 3,
              content_explanation := "Unable to parse explanation",
              format_score := 3,
              format_explanation := "Unable to parse explanation" } := by
  refine ⟨?_, ?_, ?_, rfl, rfl⟩
  · intro s
    simp [matchScoreTail, isPySpace, isPyDigit]
  · intro raw hs
    simp only [parse_response_regex, hs]
    rfl
  · intro raw e he hc
    simp only [parse_response, he, if_pos hc]

/-- Witness for the amended C10: applied at `content_score: -7`, where
the strict parse fails with a caught decode error and the score pattern
has no match, the field takes the default 3. -/
theorem fallback_unsigned_only_witness :
    parse_response "content_score: -7"
      = .ok (parse_response_regex "content_score: -7") ∧
    (parse_response_regex "content_score: -7").content_score = 3 :=
  ⟨fallback_unsigned_only.2.2.1 "content_score: -7" PyError.jsonDecodeError rfl rfl,
   fallback_unsigned_only.2.1 "content_score: -7" rfl⟩

/-- Any success returned by the retry loop is the outcome of one of the
attempts. -/
theorem retryGo_ok_exists {ε α : Type} (f : Nat → Except ε α) :
    ∀ (rem attempt : Nat) (a : α), (retryGo f attempt rem).1 = .ok a →
      ∃ n, f n = .ok a := by
  intro rem
  induction rem with
  | zero =>
    intro attempt a h
    simp only [retryGo] at h
    exact ⟨attempt, h⟩
  | succ rem ih =>
    intro attempt a h
    rcases hf : f attempt with e | b
    · simp only [retryGo, hf] at h
      exact ih _ _ h
    · simp only [retryGo, hf] at h
      exact ⟨attempt, by rw [hf, h]⟩

/-- A success of `evaluate_ticket_with_retry` is the successful parse of
a raw response one of the client attempts returned. -/
theorem evaluate_ticket_with_retry_ok
    (client : String → String → Nat → Except String String) (t rep : String)
    (res : EvaluationResult)
    (h : evaluate_ticket_with_retry client t rep = .ok res) :
    ∃ n raw, client t rep n = .ok raw ∧ parse_response raw = .ok res := by
  obtain ⟨n, hn⟩ := retryGo_ok_exists (evalAttempt client t rep) (3 - 1) 1 res h
  rcases hc : client t rep n with e | raw
  · simp only [evalAttempt, hc] at hn
    exact Except.noConfusion hn
  · rcases hp : parse_response raw with e | r2
    · simp only [evalAttempt, hc, attemptOutcome, hp] at hn
      exact Except.noConfusion hn
    · simp only [evalAttempt, hc, attemptOutcome, hp, Except.ok.injEq] at hn
      exact ⟨n, raw, hc, by rw [hp, hn]⟩

/-- C5: the retry wrapper makes at most 3 total attempts; a call failing
on attempts 1 and 2 and succeeding on attempt 3 returns the 3rd
attempt's outcome — the parsed result, or, should the parse itself raise
an uncaught exception, that error — after exactly 3 attempts; a call
failing on every attempt propagates the original error of the 3rd
(final) attempt, unmodified, after exactly 3 attempts. -/
theorem retry_wrapper_three_attempts :
    (∀ (client : String → String → Nat → Except String String) (t rep : String)
      (e1 e2 raw : String),
      client t rep 1 = .error e1 → client t rep 2 = .error e2 →
      client t rep 3 = .ok raw →
      evaluate_ticket_with_retry client t rep = attemptOutcome (parse_response raw) ∧
      evaluate_ticket_attempts client t rep = 3) ∧
    (∀ (client : String → String → Nat → Except String String) (t rep : String)
      (err : Nat → String),
      (∀ i, client t rep i = .error (err i)) →
      evaluate_ticket_with_retry client t rep = .error (err 3) ∧
      evaluate_ticket_attempts client t rep = 3) ∧
    (∀ (client : String → String → Nat → Except String String) (t rep : String),
      evaluate_ticket_attempts client t rep ≤ 3) := by
  refine ⟨?_, ?_, ?_⟩
  · intro client t rep e1 e2 raw h1 h2 h3
    constructor <;>
      rcases hp : parse_response raw with e | r <;>
      simp [evaluate_ticket_with_retry, evaluate_ticket_attempts, retry_call,
        retryGo, evalAttempt, attemptOutcome, h1, h2, h3, hp]
  · intro client t rep err h
    constructor <;>
      simp [evaluate_ticket_with_retry, evaluate_ticket_attempts, retry_call,
        retryGo, evalAttempt, h]
  · intro client t rep
    unfold evaluate_ticket_attempts retry_call
    rcases h1 : evalAttempt client t rep 1 with e | a
    · rcases h2 : evalAttempt client t rep 2 with e2 | a2
      · simp [retryGo, h1, h2]
      · simp [retryGo, h1, h2]
    · simp [retryGo, h1]

/-- Witness for C5: a client failing twice then succeeding returns the
third attempt's parsed response in 3 attempts, and an always-failing
client propagates the final error after 3 attempts. -/
theorem retry_wrapper_three_attempts_witness :
    (evaluate_ticket_with_retry
        (fun _ _ i => if i < 3 then .error (toString i) else .ok "x") "t" "r"
      = attemptOutcome (parse_response "x") ∧
     evaluate_ticket_attempts
        (fun _ _ i => if i < 3 then .error (toString i) else .ok "x") "t" "r" = 3) ∧
    (evaluate_ticket_with_retry (fun _ _ _ => .error "boom") "t" "r"
      = .error "boom" ∧
     evaluate_ticket_attempts (fun _ _ _ => .error "boom") "t" "r" = 3) :=
  ⟨retry_wrapper_three_attempts.1 _ "t" "r" "1" "2" "x" rfl rfl rfl,
   retry_wrapper_three_attempts.2.1 _ "t" "r" (fun _ => "boom") (fun _ => rfl)⟩

/-- Whether evaluation of one ticket fails after retry exhaustion. -/
def evalFails (client : String → String → Nat → Except String String)
    (t : TicketInput) : Bool :=
  match evaluate_ticket_with_retry client t.ticket t.reply with
  | .ok _ => false
  | .error _ => true

/-- A successful per-ticket evaluation never carries score 0: the result
is a parse, and the parser clamps into [1, 5]. -/
theorem evaluate_ticket_with_retry_ok_range
    (client : String → String → Nat → Except String String) (t rep : String)
    (res : EvaluationResult)
    (h : evaluate_ticket_with_retry client t rep = .ok res) :
    1 ≤ res.content_score ∧ 1 ≤ res.format_score := by
  obtain ⟨n, raw, _, hres⟩ := evaluate_ticket_with_retry_ok client t rep res h
  exact ⟨(parse_response_ok_range raw res hres).1.1,
    (parse_response_ok_range raw res hres).2.1⟩

/-- C6: the driver never raises (it is a total function), returns
exactly one output record per input record in input order (ticket and
reply preserved pointwise), and the number of records with
`content_score == 0 && format_score == 0` equals the number of inputs
whose evaluation failed after retry exhaustion. -/
theorem driver_batch_completion (tickets : List TicketInput)
    (client : String → String → Nat → Except String String) :
    (evaluate_tickets tickets client).length = tickets.length ∧
    (evaluate_tickets tickets client).map (fun r => (r.ticket, r.reply))
      = tickets.map (fun t => (t.ticket, t.reply)) ∧
    (evaluate_tickets tickets client).countP
        (fun r => r.content_score == 0 && r.format_score == 0)
      = tickets.countP (evalFails client) := by
  induction tickets with
  | nil => exact ⟨rfl, rfl, rfl⟩
  | cons t ts ih =>
    obtain ⟨ihlen, ihmap, ihcount⟩ := ih
    rcases h : evaluate_ticket_with_retry client t.ticket t.reply with e | res
    · refine ⟨?_, ?_, ?_⟩
      · simp only [evaluate_tickets, List.map_cons, List.length_cons] at ihlen ⊢
        omega
      · simpa [evaluate_tickets, h] using ihmap
      · simp only [evaluate_tickets, List.map_cons, List.countP_cons, h,
          evalFails] at ihcount ⊢
        simp [ihcount]
    · have hrange := evaluate_ticket_with_retry_ok_range client t.ticket t.reply res h
      have hne : (res.content_score == 0 && res.format_score == 0) = false := by
        have : res.content_score ≠ 0 := by omega
        simp [this]
      refine ⟨?_, ?_, ?_⟩
      · simp only [evaluate_tickets, List.map_cons, List.length_cons] at ihlen ⊢
        omega
      · simpa [evaluate_tickets, h] using ihmap
      · simp only [evaluate_tickets, List.map_cons, List.countP_cons, h,
          evalFails] at ihcount ⊢
        simp [ihcount, hne]

/-- C7: whenever evaluation of the `i`-th item fails after retry
exhaustion with error `e`, the record the driver emits at position `i`
is the degraded placeholder: scores 0 and 0, both explanations
`"Evaluation failed: " ++ e`, and the item's original ticket and reply
preserved. -/
theorem driver_failure_placeholder (tickets : List TicketInput)
    (client : String → String → Nat → Except String String)
    (i : Nat) (h : i < tickets.length) (e : String)
    (hfail : evaluate_ticket_with_retry client
      (tickets.get ⟨i, h⟩).ticket (tickets.get ⟨i, h⟩).reply = .error e) :
    (evaluate_tickets tickets client).get
        ⟨i, by simpa [evaluate_tickets] using h⟩ =
      { ticket := (tickets.get ⟨i, h⟩).ticket
        reply := (tickets.get ⟨i, h⟩).reply
        content_score := 0
        content_explanation := "Evaluation failed: " ++ e
        format_score := 0
        format_explanation := "Evaluation failed: " ++ e } := by
  unfold evaluate_tickets
  rw [List.get_map]
  rw [hfail]

/-- Witness for C7: a one-item batch whose only evaluation exhausts its
retries with error `boom` produces exactly the placeholder record. -/
theorem driver_failure_placeholder_witness :
    (evaluate_tickets [{ ticket := "t", reply := "r" }]
        (fun _ _ _ => .error "boom")).get ⟨0, by simp [evaluate_tickets]⟩ =
      { ticket := "t", reply := "r"
        content_score := 0, content_explanation := "Evaluation failed: boom"
        format_score := 0, format_explanation := "Evaluation failed: boom" } :=
  driver_failure_placeholder [{ ticket := "t", reply := "r" }]
    (fun _ _ _ => .error "boom") 0 (by decide) "boom" rfl

/-- C8: the summary counts total, successful (`content_score > 0`) and
failed records; each mean is taken over the successful records only and
is 0 (not a division by zero) when there are none; and for successes
with content scores 4 and 5 plus one failed record with scores 0 the
reported mean content score is 9/2 = 4.5, not 3. -/
theorem summary_aggregation :
    (∀ results : List TicketEvaluated,
      (summarize results).total = results.length ∧
      (summarize results).successful
        = (results.filter fun r => 0 < r.content_score).length ∧
      (summarize results).failed
        = results.length - (results.filter fun r => 0 < r.content_score).length) ∧
    (∀ results : List TicketEvaluated,
      (results.filter fun r => 0 < r.content_score) = [] →
      (summarize results).avg_content = 0 ∧ (summarize results).avg_format = 0) ∧
    (∀ results : List TicketEvaluated,
      (results.filter fun r => 0 < r.content_score) ≠ [] →
      (summarize results).avg_content
        = ((results.filter fun r => 0 < r.content_score).map
            fun r => (r.content_score : ℚ)).sum
          / (results.filter fun r => 0 < r.content_score).length ∧
      (summarize results).avg_format
        = ((results.filter fun r => 0 < r.content_score).map
            fun r => (r.format_score : ℚ)).sum
          / (results.filter fun r => 0 < r.content_score).length) ∧
    (summarize
      [{ ticket := "t1", reply := "r1", content_score := 4,
         content_explanation := "a", format_score := 4, format_explanation := "b" },
       { ticket := "t2", reply := "r2", content_score := 5,
         content_explanation := "c", format_score := 5, format_explanation := "d" },
       { ticket := "t3", reply := "r3", content_score := 0,
         content_explanation := "Evaluation failed: x", format_score := 0,
         format_explanation := "Evaluation failed: x" }]).avg_content = 9 / 2 ∧
    ((9 : ℚ) / 2 ≠ 3) := by
  refine ⟨fun results => ⟨rfl, rfl, rfl⟩, ?_, ?_, ?_, by norm_num⟩
  · intro results h
    simp [summarize, h]
  · intro results h
    have h' : (results.filter fun r => 0 < r.content_score).isEmpty = false := by
      simpa [List.isEmpty_iff] using h
    simp [summarize, h']
  · norm_num [summarize, List.filter]

/-- Witness for C8: applied to a batch with no successful records, both
means are 0 rather than a division by zero. -/
theorem summary_aggregation_witness :
    (summarize
      [{ ticket := "t", reply := "r", content_score := 0,
         content_explanation := "Evaluation failed: x", format_score := 0,
         format_explanation := "Evaluation failed: x" }]).avg_content = 0 ∧
    (summarize
      [{ ticket := "t", reply := "r", content_score := 0,
         content_explanation := "Evaluation failed: x", format_score := 0,
         format_explanation := "Evaluation failed: x" }]).avg_format = 0 :=
  summary_aggregation.2.1 _ rfl

/-- C9: ingestion with no header (empty file) is a fatal error; a header
missing a required column is a fatal error; on success the ticket list is
exactly the input rows with both fields trimmed and every row with an
empty trimmed ticket or reply dropped, and it is nonempty, each surviving
ticket having nonempty trimmed fields originating in some input row;
and zero usable rows is a fatal error rather than an empty run. -/
theorem ingestion_validation :
    (∀ rows, read_tickets none rows = .error "Empty CSV file") ∧
    (∀ fns rows, ¬ ("ticket" ∈ fns ∧ "reply" ∈ fns) →
      read_tickets (some fns) rows = .error "Missing required columns") ∧
    (∀ fns rows l, read_tickets (some fns) rows = .ok l →
      l = rows.filterMap usableRow ∧ l ≠ [] ∧
      ∀ t ∈ l, t.ticket ≠ "" ∧ t.reply ≠ "" ∧
        ∃ row ∈ rows, t.ticket = pyStrip (rowGet row "ticket") ∧
          t.reply = pyStrip (rowGet row "reply")) ∧
    (∀ fns rows, rows.filterMap usableRow = [] →
      ∃ e, read_tickets (some fns) rows = .error e) := by
  refine ⟨fun rows => rfl, ?_, ?_, ?_⟩
  · intro fns rows h
    simp only [read_tickets]
    rw [if_neg h]
  · intro fns rows l h
    simp only [read_tickets] at h
    split at h
    · split at h
      · exact Except.noConfusion h
      · injection h with h
        subst h
        refine ⟨rfl, ?_, ?_⟩
        · rename_i hne
          simpa [List.isEmpty_iff] using hne
        · intro t ht
          obtain ⟨row, hrow, hu⟩ := List.mem_filterMap.mp ht
          simp only [usableRow] at hu
          split at hu
          · exact Option.noConfusion hu
          · injection hu with hu
            subst hu
            rename_i hcond
            simp only [Bool.or_eq_true, decide_eq_true_eq, not_or] at hcond
            exact ⟨hcond.1, hcond.2, row, hrow, rfl, rfl⟩
    · exact Except.noConfusion h
  · intro fns rows h
    simp only [read_tickets]
    split
    · rw [h]
      exact ⟨_, rfl⟩
    · exact ⟨_, rfl⟩

/-- Witness for C9: a two-row input whose second row has a blank ticket
yields exactly the first row (trimmed); and the all-blank single-row
input is fatal. -/
theorem ingestion_validation_witness :
    (([{ ticket := "a", reply := "b" }] : List TicketInput)
        = [[("ticket", " a "), ("reply", "b")],
           [("ticket", " "), ("reply", "b")]].filterMap usableRow ∧
      ([{ ticket := "a", reply := "b" }] : List TicketInput) ≠ []) ∧
    (∃ e, read_tickets (some ["ticket", "reply"])
        [[("ticket", " "), ("reply", "")]] = .error e) :=
  ⟨⟨(ingestion_validation.2.2.1 ["ticket", "reply"]
      [[("ticket", " a "), ("reply", "b")], [("ticket", " "), ("reply", "b")]]
      [{ ticket := "a", reply := "b" }] rfl).1,
    (ingestion_validation.2.2.1 ["ticket", "reply"]
      [[("ticket", " a "), ("reply", "b")], [("ticket", " "), ("reply", "b")]]
      [{ ticket := "a", reply := "b" }] rfl).2.1⟩,
   ingestion_validation.2.2.2 ["ticket", "reply"]
      [[("ticket", " "), ("reply", "")]] rfl⟩

end TicketEval
